import Mathlib

/-!
Verification of the joba-api backend against its natural-language
specification.  The Python sources are shallowly embedded: each service or
repository function becomes a Lean function over explicit collection state
(lists of documents), fallible code returns `Except`, and machine-level
details (bcrypt, the HTTP transport, BSON ObjectId generation) appear as
parameters or as small faithful models noted in the doc comments.
-/

/-- An HTTP error (FastAPI `HTTPException`): status code plus detail string. -/
structure HttpError where
  status : Nat
  detail : String
deriving DecidableEq

/-- `core/exceptions.py` `NotFoundError`: HTTP 404 with a detail. -/
def notFoundError (detail : String) : HttpError :=
  { status := 404, detail := detail }

/-- `core/exceptions.py` `DatabaseError`: HTTP 500 with a detail. -/
def databaseError (detail : String) : HttpError :=
  { status := 500, detail := detail }

/-- `core/exceptions.py` `AuthenticationError`: HTTP 401 with a detail. -/
def authenticationError (detail : String) : HttpError :=
  { status := 401, detail := detail }

/-- Python `str()` of a Starlette `HTTPException`: "status: detail". -/
def pyStrHttpError (e : HttpError) : String :=
  toString e.status ++ ": " ++ e.detail

/-- Hexadecimal digit test, as accepted by `bson.ObjectId`. -/
def isHexChar (c : Char) : Bool :=
  c.isDigit || ('a' ≤ c && c ≤ 'f') || ('A' ≤ c && c ≤ 'F')

/-- `bson.ObjectId(s)` succeeds exactly on 24-character hex strings; this
models that validity check (an invalid string raises `InvalidId`). -/
def isValidObjectId (s : String) : Bool :=
  s.length == 24 && s.toList.all isHexChar

/-- A Mongo collection is modelled as a list of (`_id`, document) pairs;
`find_one({"_id": oid})` returns the first (unique) match. -/
def repoFindOne {α : Type} (coll : List (String × α)) (id : String) : Option α :=
  (coll.find? (fun p => p.1 == id)).map (fun p => p.2)

/-- The body of `Repository.get` (`repositories/base.py`) before its
`except Exception` wrapper: ObjectId parse, `find_one`, and the
`NotFoundError` raise for a missing document.  Errors are carried as the
Python `str()` of the raised exception. -/
def repositoryGetInner {α : Type} (name : String) (coll : List (String × α))
    (id : String) : Except String α :=
  if isValidObjectId id then
    match repoFindOne coll id with
    | none => .error (pyStrHttpError (notFoundError (name ++ " not found")))
    | some doc => .ok doc
  else
    .error (id ++ " is not a valid ObjectId")

/-- `Repository.get` (`repositories/base.py` lines 60-67): the whole body sits
in a `try` whose `except Exception` re-raises every failure — including the
`NotFoundError` raised inside the `try` — as `DatabaseError`. -/
def repositoryGet {α : Type} (name : String) (coll : List (String × α))
    (id : String) : Except HttpError α :=
  match repositoryGetInner name coll id with
  | .ok doc => .ok doc
  | .error s => .error (databaseError ("Failed to get " ++ name ++ ": " ++ s))

/-- The body of `Repository.delete` before its `except Exception` wrapper:
`delete_one` removes the unique matching document; `deleted_count == 0`
raises `NotFoundError`.  Returns `(True, remaining collection)` on success. -/
def repositoryDeleteInner {α : Type} (name : String) (coll : List (String × α))
    (id : String) : Except String (Bool × List (String × α)) :=
  if isValidObjectId id then
    if coll.any (fun p => p.1 == id) then
      .ok (true, coll.filter (fun p => !(p.1 == id)))
    else
      .error (pyStrHttpError (notFoundError (name ++ " not found")))
  else
    .error (id ++ " is not a valid ObjectId")

/-- `Repository.delete` (`repositories/base.py` lines 91-98) with its
`except Exception` wrapper turning every failure into `DatabaseError`. -/
def repositoryDelete {α : Type} (name : String) (coll : List (String × α))
    (id : String) : Except HttpError (Bool × List (String × α)) :=
  match repositoryDeleteInner name coll id with
  | .ok r => .ok r
  | .error s => .error (databaseError ("Failed to delete " ++ name ++ ": " ++ s))

/-- Cover-letter status enum (`domain/models/cover_letter.py`). -/
inductive CoverLetterStatus where
  | draft
  | published
  | archived
deriving DecidableEq

/-- Structured cover-letter content: four named sections. -/
structure CoverLetterContent where
  introduction : String
  body_part_1 : String
  body_part_2 : String
  conclusion : String
deriving DecidableEq

/-- A stored cover-letter document (`CoverLetterInDB` plus its Mongo `_id`,
here the string form of the ObjectId). -/
structure CoverLetterDoc where
  id : String
  user_id : String
  name : String
  content : CoverLetterContent
  status : CoverLetterStatus
  job_title : Option String
  company_name : Option String
  tags : List String
  active : Bool
  created_at : Nat
  updated_at : Nat
deriving DecidableEq

/-- `CoverLetterCreate` payload (`domain/models/cover_letter.py`). -/
structure CoverLetterCreateData where
  name : String
  content : CoverLetterContent
  status : CoverLetterStatus
  job_title : Option String
  company_name : Option String
  tags : List String
  active : Bool
deriving DecidableEq

/-- `CoverLetterUpdate` payload: every field optional; `None` fields are
dropped before the `$set`. -/
structure CoverLetterUpdateData where
  name : Option String
  content : Option CoverLetterContent
  status : Option CoverLetterStatus
  job_title : Option String
  company_name : Option String
  tags : Option (List String)
  active : Option Bool
deriving DecidableEq

/-- The `update_many` filter of `deactivate_other_cover_letters`
(`repositories/cover_letter_repository.py` lines 79-84): same user, a
different `_id`, and currently active. -/
def matchesDeactivation (user_id exclude_id : String) (d : CoverLetterDoc) :
    Bool :=
  d.user_id == user_id && !(d.id == exclude_id) && d.active

/-- Mongo `update_many`: apply `set` to every document matching `filter`,
leaving all other documents untouched. -/
def updateManyCoverLetters (filter : CoverLetterDoc → Bool)
    (set : CoverLetterDoc → CoverLetterDoc) (coll : List CoverLetterDoc) :
    List CoverLetterDoc :=
  coll.map (fun d => if filter d then set d else d)

/-- `CoverLetterRepository.deactivate_other_cover_letters` (lines 76-88):
`update_many` setting `active = False` and stamping `updated_at` on every
active cover letter of the user other than `exclude_id`.  An invalid
`exclude_id` makes `ObjectId` raise, wrapped into `DatabaseError`. -/
def deactivate_other_cover_letters (coll : List CoverLetterDoc)
    (user_id exclude_id : String) (now : Nat) :
    Except HttpError (List CoverLetterDoc) :=
  if isValidObjectId exclude_id then
    .ok (updateManyCoverLetters (matchesDeactivation user_id exclude_id)
      (fun d => { d with active := false, updated_at := now }) coll)
  else
    .error (databaseError ("Failed to deactivate cover letters: "
      ++ exclude_id ++ " is not a valid ObjectId"))

/-- `Repository.get` specialised to the cover-letters collection: the
documents carry their `_id` in the `id` field.  Mirrors `repositoryGet`
including the `except Exception` wrapper. -/
def coverRepoGet (coll : List CoverLetterDoc) (id : String) :
    Except HttpError CoverLetterDoc :=
  match repositoryGet "cover_letters" (coll.map (fun d => (d.id, d))) id with
  | .ok d => .ok d
  | .error e => .error e

/-- The partial merge performed by `Repository.update`'s `$set` for a
cover-letter document: non-`None` payload fields overwrite the stored ones
and `updated_at` is stamped. -/
def applyCoverLetterUpdate (d : CoverLetterDoc) (upd : CoverLetterUpdateData)
    (now : Nat) : CoverLetterDoc :=
  { d with
    name := upd.name.getD d.name
    content := upd.content.getD d.content
    status := upd.status.getD d.status
    job_title := match upd.job_title with | some v => some v | none => d.job_title
    company_name := match upd.company_name with | some v => some v | none => d.company_name
    tags := upd.tags.getD d.tags
    active := upd.active.getD d.active
    updated_at := now }

/-- `Repository.update` for cover letters (`find_one_and_update` with
`$set`): returns the updated document and the new collection, or the
(wrapped) `NotFoundError` when no document matches. -/
def coverRepoUpdate (coll : List CoverLetterDoc) (id : String)
    (upd : CoverLetterUpdateData) (now : Nat) :
    Except HttpError (CoverLetterDoc × List CoverLetterDoc) :=
  if isValidObjectId id then
    match coll.find? (fun d => d.id == id) with
    | some d =>
        .ok (applyCoverLetterUpdate d upd now,
          coll.map (fun e => if e.id == id then applyCoverLetterUpdate e upd now else e))
    | none =>
        .error (databaseError ("Failed to update cover_letters: "
          ++ pyStrHttpError (notFoundError "cover_letters not found")))
  else
    .error (databaseError ("Failed to update cover_letters: "
      ++ id ++ " is not a valid ObjectId"))

/-- Document built by `CoverLetterService.create_cover_letter` before insert:
payload fields plus `user_id` and both timestamps (`services/
cover_letter_service.py` lines 27-35), with the store-generated id. -/
def coverLetterFromCreate (data : CoverLetterCreateData)
    (user_id newId : String) (now : Nat) : CoverLetterDoc :=
  { id := newId
    user_id := user_id
    name := data.name
    content := data.content
    status := data.status
    job_title := data.job_title
    company_name := data.company_name
    tags := data.tags
    active := data.active
    created_at := now
    updated_at := now }

/-- `CoverLetterService.create_cover_letter` (lines 21-47): insert the new
document, then — when the payload marks it active — deactivate all other
cover letters of the user, excluding the fresh id.  Returns the created
document and the resulting collection. -/
def create_cover_letter (coll : List CoverLetterDoc) (user_id : String)
    (data : CoverLetterCreateData) (newId : String) (now : Nat) :
    Except HttpError (CoverLetterDoc × List CoverLetterDoc) :=
  let doc := coverLetterFromCreate data user_id newId now
  let coll1 := coll ++ [doc]
  if data.active then
    match deactivate_other_cover_letters coll1 user_id newId now with
    | .ok coll2 => .ok (doc, coll2)
    | .error e =>
        .error (databaseError ("Failed to create cover letter: "
          ++ pyStrHttpError e))
  else
    .ok (doc, coll1)

/-- `CoverLetterService.update_cover_letter` (lines 91-122): fetch, check
ownership (collapsing a foreign owner into NotFound), apply the partial
update, then — when the payload sets `active` truthy — deactivate the other
cover letters of the user.  Every failure is wrapped into `DatabaseError`
by the service-level `except Exception`. -/
def update_cover_letter (coll : List CoverLetterDoc)
    (user_id cover_letter_id : String) (upd : CoverLetterUpdateData)
    (now : Nat) : Except HttpError (CoverLetterDoc × List CoverLetterDoc) :=
  match coverRepoGet coll cover_letter_id with
  | .error e =>
      .error (databaseError ("Failed to update cover letter: "
        ++ pyStrHttpError e))
  | .ok existing =>
    if existing.user_id == user_id then
      match coverRepoUpdate coll cover_letter_id upd now with
      | .error e =>
          .error (databaseError ("Failed to update cover letter: "
            ++ pyStrHttpError e))
      | .ok (updated, coll1) =>
        if upd.active == some true then
          match deactivate_other_cover_letters coll1 user_id cover_letter_id now with
          | .ok coll2 => .ok (updated, coll2)
          | .error e =>
              .error (databaseError ("Failed to update cover letter: "
                ++ pyStrHttpError e))
        else
          .ok (updated, coll1)
    else
      .error (databaseError ("Failed to update cover letter: "
        ++ pyStrHttpError (notFoundError "Cover letter not found")))

/-- Sample content used by concrete witnesses. -/
def demoContent : CoverLetterContent :=
  { introduction := "i", body_part_1 := "b1", body_part_2 := "b2",
    conclusion := "c" }

/-- A valid ObjectId string (24 hex characters). -/
def demoId1 : String := "aaaaaaaaaaaaaaaaaaaaaaaa"

/-- A second valid ObjectId string. -/
def demoId2 : String := "bbbbbbbbbbbbbbbbbbbbbbbb"

/-- A third valid ObjectId string. -/
def demoId3 : String := "cccccccccccccccccccccccc"

/-- A stored active cover letter of user `u1`. -/
def demoDocA : CoverLetterDoc :=
  { id := demoId1, user_id := "u1", name := "A", content := demoContent,
    status := .draft, job_title := none, company_name := none, tags := [],
    active := true, created_at := 0, updated_at := 0 }

/-- A stored inactive cover letter of user `u1`. -/
def demoDocB : CoverLetterDoc :=
  { id := demoId2, user_id := "u1", name := "B", content := demoContent,
    status := .draft, job_title := none, company_name := none, tags := [],
    active := false, created_at := 1, updated_at := 1 }

/-- A creation payload marked active. -/
def demoCreate : CoverLetterCreateData :=
  { name := "N", content := demoContent, status := .draft, job_title := none,
    company_name := none, tags := [], active := true }

/-- An update payload that only sets `active = True`. -/
def demoUpd : CoverLetterUpdateData :=
  { name := none, content := none, status := none, job_title := none,
    company_name := none, tags := none, active := some true }

/-- Outcome of one upstream HTTP attempt inside `ClaudeClient.analyze_file`:
a response with a status code and body, an `httpx` timeout, or some other
transport exception. -/
inductive UpstreamResult where
  | status (code : Nat) (body : String)
  | timeout
  | exn (msg : String)
deriving DecidableEq

/-- Exceptions that can escape the retry loop of `analyze_file`, before the
outer handlers classify them. -/
inductive LoopExn where
  | httpExc (e : HttpError)
  | timeoutExc
  | otherExc (msg : String)
deriving DecidableEq

/-- The retry loop of `ClaudeClient.analyze_file` (`core/claude_client.py`
lines 174-223), driven by the list of remaining attempt indices
(`[0, 1, 2]` in the source).  A 200 breaks out with the response body.  Any
other outcome — 429, another non-200 status (whose `raise HTTPException`
is caught by the per-attempt `except Exception`), a timeout, or another
exception — sleeps `2 ** attempt` seconds and retries while attempts
remain; on the last attempt the exception propagates.  The second
component records the backoff sleeps performed. -/
def analyzeFileLoop (resp : Nat → UpstreamResult) :
    List Nat → Except LoopExn String × List Nat
  | [] => (.error (.otherExc "unreachable: the loop always breaks or raises"), [])
  | a :: rest =>
    match resp a with
    | .status 200 body => (.ok body, [])
    | .status _ body =>
        if rest.isEmpty then
          (.error (.httpExc (databaseError ("Error analyzing file: " ++ body))), [])
        else
          let r := analyzeFileLoop resp rest
          (r.1, 2 ^ a :: r.2)
    | .timeout =>
        if rest.isEmpty then (.error .timeoutExc, [])
        else
          let r := analyzeFileLoop resp rest
          (r.1, 2 ^ a :: r.2)
    | .exn m =>
        if rest.isEmpty then (.error (.otherExc m), [])
        else
          let r := analyzeFileLoop resp rest
          (r.1, 2 ^ a :: r.2)

/-- ASCII lowercasing of a character (Python `str.lower` on the extension
alphabet actually used). -/
def asciiLowerChar (c : Char) : Char :=
  if 'A' ≤ c && c ≤ 'Z' then Char.ofNat (c.toNat + 32) else c

/-- Python `file_extension.lower()`. -/
def pyLower (s : String) : String :=
  String.mk (s.toList.map asciiLowerChar)

/-- The MIME allow-list of `analyze_file`. -/
def mimeTypes : List (String × String) :=
  [(".pdf", "application/pdf"),
   (".doc", "application/msword"),
   (".docx", "application/vnd.openxmlformats-officedocument.wordprocessingml.document")]

/-- `ClaudeClient.analyze_file` (lines 141-243): extension check, then the
3-attempt retry loop, then the outer exception handlers (`TimeoutException`
becomes 504, everything else becomes a 500 wrapping the stringified
exception).  Returns the final outcome and the list of backoff sleeps. -/
def analyze_file (ext : String) (resp : Nat → UpstreamResult) :
    Except HttpError String × List Nat :=
  match mimeTypes.lookup (pyLower ext) with
  | none =>
      (.error (databaseError
        ("Error analyzing file: Unsupported file format: " ++ ext)), [])
  | some _ =>
    let r := analyzeFileLoop resp [0, 1, 2]
    match r.1 with
    | .ok body => (.ok body, r.2)
    | .error .timeoutExc =>
        (.error { status := 504, detail := "API request timeout" }, r.2)
    | .error (.httpExc e) =>
        (.error (databaseError ("Error analyzing file: " ++ pyStrHttpError e)),
          r.2)
    | .error (.otherExc m) =>
        (.error (databaseError ("Error analyzing file: " ++ m)), r.2)

/-- A concrete upstream schedule: HTTP 500 on the first attempt, HTTP 200 on
the second. -/
def respFail500Then200 : Nat → UpstreamResult := fun n =>
  if n == 0 then .status 500 "boom" else .status 200 "parsed"

/-- The opening-brace character, written numerically. -/
def lbrace : Char := Char.ofNat 123

/-- The closing-brace character, written numerically. -/
def rbrace : Char := Char.ofNat 125

/-- A JSON value, as produced by Python's `json.loads` (numbers are
modelled as integers; the flows under verification only exchange integral
scores and strings). -/
inductive Json where
  | null
  | bool (b : Bool)
  | num (n : Int)
  | str (text : String)
  | arr (items : List Json)
  | obj (pairs : List (String × Json))

/-- Skip JSON whitespace. -/
def jsonSkipWs : List Char → List Char
  | c :: cs =>
      if c = ' ' ∨ c = '\n' ∨ c = '\t' ∨ c = '\r' then jsonSkipWs cs
      else c :: cs
  | [] => []

/-- One-character JSON string escapes (`\u` escapes are outside the
modelled fragment). -/
def jsonEscChar (c : Char) : Option Char :=
  if c = '"' ∨ c = '\\' ∨ c = '/' then some c
  else if c = 'n' then some '\n'
  else if c = 't' then some '\t'
  else if c = 'r' then some '\r'
  else none

/-- Parse the body of a JSON string (after the opening quote) up to the
closing quote. -/
def parseStringBody : List Char → Option (String × List Char)
  | [] => none
  | c :: cs =>
    if c = '"' then some ("", cs)
    else if c = '\\' then
      match cs with
      | [] => none
      | e :: cs2 =>
        match jsonEscChar e with
        | none => none
        | some ch =>
            (parseStringBody cs2).map
              (fun p => (String.mk (ch :: p.1.toList), p.2))
    else
      (parseStringBody cs).map (fun p => (String.mk (c :: p.1.toList), p.2))

/-- Consume a maximal run of digits, accumulating their value. -/
def jsonTakeDigits (acc : Nat) : List Char → Nat × List Char
  | c :: cs =>
      if c.isDigit then jsonTakeDigits (acc * 10 + (c.toNat - 48)) cs
      else (acc, c :: cs)
  | [] => (acc, [])

/-- Parse a JSON integer (optional minus then digits; fractions and
exponents are outside the modelled fragment). -/
def parseNumber : List Char → Option (Int × List Char)
  | '-' :: c :: cs =>
      if c.isDigit then
        let p := jsonTakeDigits (c.toNat - 48) cs
        some (-(p.1 : Int), p.2)
      else none
  | c :: cs =>
      if c.isDigit then
        let p := jsonTakeDigits (c.toNat - 48) cs
        some ((p.1 : Int), p.2)
      else none
  | [] => none

mutual

/-- Fuel-indexed recursive-descent parser for a JSON value. -/
def parseValue : Nat → List Char → Option (Json × List Char)
  | 0, _ => none
  | fuel + 1, cs =>
    match jsonSkipWs cs with
    | [] => none
    | c :: rest =>
      if c = '"' then
        (parseStringBody rest).map (fun p => (Json.str p.1, p.2))
      else if c = lbrace then
        match jsonSkipWs rest with
        | [] => none
        | d :: r2 =>
          if d = rbrace then some (Json.obj [], r2)
          else
            (parseObjMembers fuel (d :: r2)).map
              (fun p => (Json.obj p.1, p.2))
      else if c = '[' then
        match jsonSkipWs rest with
        | [] => none
        | d :: r2 =>
          if d = ']' then some (Json.arr [], r2)
          else
            (parseArrayItems fuel (d :: r2)).map
              (fun p => (Json.arr p.1, p.2))
      else if c = 't' then
        match rest with
        | 'r' :: 'u' :: 'e' :: r => some (Json.bool true, r)
        | _ => none
      else if c = 'f' then
        match rest with
        | 'a' :: 'l' :: 's' :: 'e' :: r => some (Json.bool false, r)
        | _ => none
      else if c = 'n' then
        match rest with
        | 'u' :: 'l' :: 'l' :: r => some (Json.null, r)
        | _ => none
      else
        (parseNumber (c :: rest)).map (fun p => (Json.num p.1, p.2))

/-- Parse the comma-separated items of a non-empty JSON array, consuming
the closing bracket. -/
def parseArrayItems : Nat → List Char → Option (List Json × List Char)
  | 0, _ => none
  | fuel + 1, cs =>
    match parseValue fuel cs with
    | none => none
    | some (v, r) =>
      match jsonSkipWs r with
      | [] => none
      | c :: r2 =>
        if c = ',' then
          (parseArrayItems fuel r2).map (fun p => (v :: p.1, p.2))
        else if c = ']' then some ([v], r2)
        else none

/-- Parse the members of a non-empty JSON object, consuming the closing
brace. -/
def parseObjMembers : Nat → List Char → Option (List (String × Json) × List Char)
  | 0, _ => none
  | fuel + 1, cs =>
    match jsonSkipWs cs with
    | [] => none
    | c :: rest =>
      if c = '"' then
        match parseStringBody rest with
        | none => none
        | some (k, r1) =>
          match jsonSkipWs r1 with
          | [] => none
          | d :: r3 =>
            if d = ':' then
              match parseValue fuel r3 with
              | none => none
              | some (v, r4) =>
                match jsonSkipWs r4 with
                | [] => none
                | e2 :: r6 =>
                  if e2 = ',' then
                    (parseObjMembers fuel r6).map
                      (fun p => ((k, v) :: p.1, p.2))
                  else if e2 = rbrace then some ([(k, v)], r6)
                  else none
            else none
      else none

end

/-- Python `json.loads` on the modelled fragment: parse one value and
reject trailing non-whitespace. -/
def jsonParse (s : String) : Except String Json :=
  match parseValue (s.length + 1) s.toList with
  | none => .error "Invalid JSON"
  | some (v, r) =>
      match jsonSkipWs r with
      | [] => .ok v
      | _ => .error "Extra data"

/-- Python `str.find` for a single character: first index or -1. -/
def pyFindAux (c : Char) : List Char → Option Nat
  | [] => none
  | x :: xs => if x = c then some 0 else (pyFindAux c xs).map (fun i => i + 1)

/-- `content.find(c)`. -/
def pyFind (s : String) (c : Char) : Int :=
  match pyFindAux c s.toList with
  | some i => (i : Int)
  | none => -1

/-- `content.rfind(c)`: last index or -1, computed from the reversed list. -/
def pyRfind (s : String) (c : Char) : Int :=
  match pyFindAux c s.toList.reverse with
  | some i => (s.toList.length : Int) - 1 - (i : Int)
  | none => -1

/-- Python slice `s[a:b]` for in-range bounds. -/
def pySlice (s : String) (a b : Nat) : String :=
  String.mk ((s.toList.drop a).take (b - a))

/-- `ClaudeClient.extract_json` (`core/claude_client.py` lines 100-139),
applied to the text already extracted from the model response: locate the
first brace and the last closing brace, slice inclusively, parse as JSON;
a missing brace or a parse failure raises `ValueError`, which the
enclosing `except Exception` converts to an HTTP 500 "Error extracting
data" (the detail carries the underlying message). -/
def extract_json (content : String) : Except HttpError Json :=
  let start := pyFind content lbrace
  let stop := pyRfind content rbrace + 1
  if start == -1 || stop == 0 then
    .error (databaseError
      "Error extracting data: Could not find JSON in response")
  else
    match jsonParse (pySlice content start.toNat stop.toNat) with
    | .ok j => .ok j
    | .error _ =>
        .error (databaseError "Error extracting data: Error parsing JSON")

/-- A stored user document (`users` collection). `updated_at` may be absent
(`create_user` never writes it; readers default it to "now"). -/
structure UserDoc where
  id : String
  email : String
  username : Option String
  password : String
  created_at : Nat
  updated_at : Option Nat
deriving DecidableEq

/-- The sanitized user returned by `authenticate_user`. -/
structure UserOut where
  id : String
  email : String
  username : Option String
  created_at : Nat
  updated_at : Nat
deriving DecidableEq

/-- `UserCreate` signup payload. -/
structure UserCreateData where
  email : String
  password : String
  username : Option String
deriving DecidableEq

/-- Python truthiness of an optional string (`None` and `""` are falsy). -/
def pyTruthy : Option String → Bool
  | none => false
  | some s => !(s == "")

/-- A JWT as issued by `jwt.encode`: the `sub` claim, the `exp` claim, and
the signing key (standing for the HS256 signature). -/
structure JwtToken where
  sub : Option String
  exp : Nat
  key : String
deriving DecidableEq

/-- `create_access_token` (`core/auth.py` lines 34-42) with an explicit
expiry delta in hours (`ACCESS_TOKEN_EXPIRE_HOURS = 24` at the call
sites). -/
def create_access_token (sub : String) (expiresHours : Nat) (now : Nat)
    (key : String) : JwtToken :=
  { sub := some sub, exp := now + expiresHours * 3600, key := key }

/-- `create_refresh_token` (lines 44-49): 7-day expiry. -/
def create_refresh_token (sub : String) (now : Nat) (key : String) :
    JwtToken :=
  { sub := some sub, exp := now + 7 * 86400, key := key }

/-- `jose.jwt.decode`: verification fails closed — wrong key or an expired
`exp` claim raises `JWTError`; otherwise the payload (here its `sub`) is
returned. -/
def jwtDecode (tok : JwtToken) (key : String) (now : Nat) :
    Option (Option String) :=
  if tok.key == key && decide (now < tok.exp) then some tok.sub else none

/-- `core/auth.py` `create_user` (lines 51-84): email-uniqueness check,
then username-uniqueness check (only when a truthy username was supplied),
then insert with the bcrypt-hashed password (hashing is the external
`passlib` call, passed in as `hashFn`).  Returns the outcome plus the
resulting users collection (unchanged on conflict). -/
def create_user (hashFn : String → String) (db : List UserDoc)
    (payload : UserCreateData) (newId : String) (now : Nat) :
    Except HttpError UserDoc × List UserDoc :=
  if db.any (fun d => d.email == payload.email) then
    (.error { status := 409, detail := "Email already registered" }, db)
  else if pyTruthy payload.username
      && db.any (fun d => d.username == payload.username) then
    (.error { status := 409, detail := "Username already taken" }, db)
  else
    let doc : UserDoc :=
      { id := newId, email := payload.email, username := payload.username,
        password := hashFn payload.password, created_at := now,
        updated_at := none }
    (.ok doc, db ++ [doc])

/-- The `/signup` response of `routers/auth.py`. -/
structure TokenResponse where
  access_token : JwtToken
  refresh_token : JwtToken
  token_type : String
deriving DecidableEq

/-- `routers/auth.py` `signup` (lines 19-42): `create_user`, then issue a
24-hour access token and a refresh token for the created id. -/
def signup (hashFn : String → String) (db : List UserDoc)
    (payload : UserCreateData) (newId : String) (now : Nat) (key : String) :
    Except HttpError TokenResponse × List UserDoc :=
  match create_user hashFn db payload newId now with
  | (.error e, db') => (.error e, db')
  | (.ok u, db') =>
      (.ok { access_token := create_access_token u.id 24 now key,
             refresh_token := create_refresh_token u.id now key,
             token_type := "bearer" }, db')

/-- `services/auth.py` `AuthService.create_user` (lines 43-63): same
uniqueness checks, but duplicates raise `AuthenticationError` (HTTP 401),
not a 409 Conflict. -/
def authServiceCreateUser (hashFn : String → String) (db : List UserDoc)
    (payload : UserCreateData) (newId : String) (now : Nat) :
    Except HttpError UserDoc × List UserDoc :=
  if db.any (fun d => d.email == payload.email) then
    (.error (authenticationError "Email already registered"), db)
  else if pyTruthy payload.username
      && db.any (fun d => d.username == payload.username) then
    (.error (authenticationError "Username already taken"), db)
  else
    let doc : UserDoc :=
      { id := newId, email := payload.email, username := payload.username,
        password := hashFn payload.password, created_at := now,
        updated_at := none }
    (.ok doc, db ++ [doc])

/-- The single 401 raised by `authenticate_user` for both failure causes
(no matching user, wrong password); detail and `WWW-Authenticate` header
are identical in the two raises. -/
def incorrectLoginError : HttpError :=
  authenticationError "Incorrect login or password"

/-- `core/auth.py` `authenticate_user` (lines 86-130): look the user up by
email OR username, fail with the shared 401 on no match or on password
mismatch (`verify` stands for passlib's `verify_password`), otherwise
return the sanitized user (missing `updated_at` defaults to now). -/
def authenticate_user (verify : String → String → Bool)
    (db : List UserDoc) (login password : String) (now : Nat) :
    Except HttpError UserOut :=
  match db.find? (fun d => d.email == login || d.username == some login) with
  | none => .error incorrectLoginError
  | some u =>
    if verify password u.password then
      .ok { id := u.id, email := u.email, username := u.username,
            created_at := u.created_at,
            updated_at := u.updated_at.getD now }
    else .error incorrectLoginError

/-- `core/auth.py` `refresh_access_token` (lines 164-204): decode the
refresh token (fail-closed 401), reject a payload without `sub` (401),
look the user up (401 when missing; an invalid ObjectId string lands in
the generic `except Exception` as a 500), then issue a fresh 24-hour
access token for the same subject. -/
def refresh_access_token (db : List UserDoc) (rt : JwtToken) (now : Nat)
    (key : String) : Except HttpError JwtToken :=
  match jwtDecode rt key now with
  | none => .error (authenticationError "Invalid refresh token")
  | some none => .error (authenticationError "Invalid refresh token")
  | some (some uid) =>
    if isValidObjectId uid then
      match db.find? (fun d => d.id == uid) with
      | none => .error (authenticationError "User not found")
      | some _ => .ok (create_access_token uid 24 now key)
    else .error (databaseError "Error refreshing token")

/-- `routers/auth.py` `refresh_token` endpoint (lines 71-91): returns the
new access token together with the caller's refresh token, unchanged. -/
def refresh_endpoint (db : List UserDoc) (rt : JwtToken) (now : Nat)
    (key : String) : Except HttpError TokenResponse :=
  match refresh_access_token db rt now key with
  | .ok tok =>
      .ok { access_token := tok, refresh_token := rt,
            token_type := "bearer" }
  | .error e => .error e

/-- The response of `core/auth.py` `check_availability`. -/
structure AvailabilityResult where
  is_available : Bool
  message : String
deriving DecidableEq

/-- `core/auth.py` `check_availability` (lines 206-256): neither field
supplied gives a normal unavailable response; a supplied (truthy) email is
checked first and short-circuits with its own message; then the username;
otherwise available. -/
def check_availability (db : List UserDoc)
    (email username : Option String) : AvailabilityResult :=
  if !(pyTruthy email) && !(pyTruthy username) then
    { is_available := false, message := "No email or username provided" }
  else if pyTruthy email && db.any (fun d => d.email == email.getD "") then
    { is_available := false, message := "Email already registered" }
  else if pyTruthy username
      && db.any (fun d => d.username == some (username.getD "")) then
    { is_available := false, message := "Username already taken" }
  else
    { is_available := true, message := "Available" }

/-- A stored user holding both a concrete email and username, for the
concrete runs. -/
def demoUser : UserDoc :=
  { id := demoId1, email := "e@x.com", username := some "u",
    password := "H", created_at := 0, updated_at := none }

/-- A concrete stand-in for passlib verification: the stored hash is
"h:" followed by the plain password. -/
def v0 : String → String → Bool := fun plain hashed => hashed == "h:" ++ plain

/-- A concrete stand-in for passlib hashing, matching `v0`. -/
def h0 : String → String := fun plain => "h:" ++ plain

/-- A valid, unexpired refresh token for `demoUser`. -/
def demoRefreshToken : JwtToken :=
  { sub := some demoId1, exp := 1000, key := "k" }

/-- Resume status enum (`models/resumes.py`): the two stored values are
"active" and "archived". -/
inductive ResumeStatus where
  | active
  | archived
deriving DecidableEq

/-- Rank of a resume status under BSON string comparison ascending:
"active" sorts before "archived". -/
def resumeStatusKey : ResumeStatus → Nat
  | .active => 0
  | .archived => 1

/-- The scoring block defaulted per item by `get_resumes_by_user`. -/
structure ResumeScoring where
  total_score : Int
  sections_score : Int
  experience_score : Int
  education_score : Int
  timeline_score : Int
  language_score : Int
deriving DecidableEq

/-- The all-zero default scoring. -/
def zeroScoring : ResumeScoring :=
  { total_score := 0, sections_score := 0, experience_score := 0,
    education_score := 0, timeline_score := 0, language_score := 0 }

/-- A stored resume document. -/
structure ResumeDoc where
  id : String
  user_id : String
  filename : String
  file_id : String
  status : ResumeStatus
  created_at : Nat
  scoring : Option ResumeScoring
deriving DecidableEq

/-- The per-item dict built by `get_resumes_by_user`
(`routers/resumes.py` lines 57-74): same fields, scoring defaulted to
zeros when absent. -/
structure ProcessedResume where
  id : String
  user_id : String
  filename : String
  file_id : String
  status : ResumeStatus
  created_at : Nat
  scoring : ResumeScoring
deriving DecidableEq

/-- Convert a stored resume to the response item. -/
def processResumeDoc (d : ResumeDoc) : ProcessedResume :=
  { id := d.id, user_id := d.user_id, filename := d.filename,
    file_id := d.file_id, status := d.status, created_at := d.created_at,
    scoring := d.scoring.getD zeroScoring }

/-- The Mongo sort key of `get_resumes_by_user`: status ascending, then
`created_at` descending. -/
def resumeOrder (a b : ResumeDoc) : Prop :=
  resumeStatusKey a.status < resumeStatusKey b.status
  ∨ (resumeStatusKey a.status = resumeStatusKey b.status
      ∧ b.created_at ≤ a.created_at)

instance : DecidableRel resumeOrder := fun a b => by
  unfold resumeOrder
  infer_instance

instance : IsTotal ResumeDoc resumeOrder := by
  constructor
  intro a b
  rcases lt_trichotomy (resumeStatusKey a.status) (resumeStatusKey b.status)
    with h | h | h
  · exact Or.inl (Or.inl h)
  · rcases le_total b.created_at a.created_at with h2 | h2
    · exact Or.inl (Or.inr ⟨h, h2⟩)
    · exact Or.inr (Or.inr ⟨h.symm, h2⟩)
  · exact Or.inr (Or.inl h)

instance : IsTrans ResumeDoc resumeOrder := by
  constructor
  intro a b c hab hbc
  rcases hab with h1 | ⟨h1, h1c⟩ <;> rcases hbc with h2 | ⟨h2, h2c⟩
  · exact Or.inl (h1.trans h2)
  · exact Or.inl (h2 ▸ h1)
  · exact Or.inl (h1 ▸ h2)
  · exact Or.inr ⟨h1.trans h2, h2c.trans h1c⟩

/-- The list+pagination response of `get_resumes_by_user`; the pagination
dict is kept as string-keyed pairs to preserve its exact key spelling. -/
structure ResumeListResult where
  list : List ProcessedResume
  pagination : List (String × Nat)
deriving DecidableEq

/-- The Mongo filter of `get_resumes_by_user`: `user_id` plus the optional
status filter. -/
def resumeQuery (u : String) (st? : Option ResumeStatus) (d : ResumeDoc) :
    Bool :=
  d.user_id == u
  && (match st? with | none => true | some st => d.status == st)

/-- `routers/resumes.py` `get_resumes_by_user` (lines 19-84): filter by
user (and optional status), count, sort by status ascending then
`created_at` descending, skip/limit, convert items, and return camelCase
pagination keys (`currentPage`, `totalPages`, `perPage`). -/
def get_resumes_by_user (db : List ResumeDoc) (user_id : String)
    (page per_page : Nat) (status? : Option ResumeStatus) :
    ResumeListResult :=
  let filtered := db.filter (resumeQuery user_id status?)
  let total := filtered.length
  let skip := (page - 1) * per_page
  let sorted := List.insertionSort resumeOrder filtered
  let items := (sorted.drop skip).take per_page
  { list := items.map processResumeDoc,
    pagination := [("total", total), ("currentPage", page),
      ("totalPages", (total + per_page - 1) / per_page),
      ("perPage", per_page)] }

/-- The Mongo sort key of `CoverLetterRepository.get_by_user`: only
`updated_at` descending (no status key). -/
def clOrder (a b : CoverLetterDoc) : Prop :=
  b.updated_at ≤ a.updated_at

instance : DecidableRel clOrder := fun a b => by
  unfold clOrder
  infer_instance

instance : IsTotal CoverLetterDoc clOrder := by
  constructor
  intro a b
  rcases le_total b.updated_at a.updated_at with h | h
  · exact Or.inl h
  · exact Or.inr h

instance : IsTrans CoverLetterDoc clOrder := by
  constructor
  intro a b c hab hbc
  exact hbc.trans hab

/-- The list+pagination response of `get_by_user` for cover letters. -/
structure CoverLetterListResult where
  list : List CoverLetterDoc
  pagination : List (String × Nat)
deriving DecidableEq

/-- The Mongo filter of cover-letter `get_by_user`: `user_id` plus the
optional status and active filters. -/
def clQuery (u : String) (st? : Option CoverLetterStatus)
    (act? : Option Bool) (d : CoverLetterDoc) : Bool :=
  d.user_id == u
  && (match st? with | none => true | some st => d.status == st)
  && (match act? with | none => true | some b => d.active == b)

/-- `CoverLetterRepository.get_by_user`
(`repositories/cover_letter_repository.py` lines 23-61): filter by user and
optional status/active, count, sort by `updated_at` descending, skip/limit,
and return snake_case pagination keys. -/
def coverLetterGetByUser (db : List CoverLetterDoc) (user_id : String)
    (page per_page : Nat) (status? : Option CoverLetterStatus)
    (active? : Option Bool) : CoverLetterListResult :=
  let filtered := db.filter (clQuery user_id status? active?)
  let total := filtered.length
  let skip := (page - 1) * per_page
  let sorted := List.insertionSort clOrder filtered
  let items := (sorted.drop skip).take per_page
  { list := items,
    pagination := [("total", total), ("current_page", page),
      ("total_pages", (total + per_page - 1) / per_page),
      ("per_page", per_page)] }

/-- Rank of a cover-letter status under BSON string comparison ascending:
"archived" < "draft" < "published". -/
def clStatusKey : CoverLetterStatus → Nat
  | .archived => 0
  | .draft => 1
  | .published => 2

/-- The order induced on response items by the resumes sort key. -/
def procResumeOrder (a b : ProcessedResume) : Prop :=
  resumeStatusKey a.status < resumeStatusKey b.status
  ∨ (resumeStatusKey a.status = resumeStatusKey b.status
      ∧ b.created_at ≤ a.created_at)

/-- A concrete stored resume of user "u". -/
def mkResume (i : Nat) : ResumeDoc :=
  { id := toString i, user_id := "u", filename := "f", file_id := "g",
    status := .archived, created_at := i, scoring := none }

/-- Fifteen stored resumes of user "u". -/
def db15 : List ResumeDoc := (List.range 15).map mkResume

/-- A published cover letter of user "u1", updated most recently. -/
def demoCLA : CoverLetterDoc :=
  { id := demoId1, user_id := "u1", name := "A", content := demoContent,
    status := .published, job_title := none, company_name := none,
    tags := [], active := false, created_at := 0, updated_at := 2 }

/-- An archived cover letter of user "u1", updated earlier. -/
def demoCLB : CoverLetterDoc :=
  { id := demoId2, user_id := "u1", name := "B", content := demoContent,
    status := .archived, job_title := none, company_name := none,
    tags := [], active := false, created_at := 0, updated_at := 1 }

/-- C2: evaluating `Repository.get` and `Repository.delete` on a collection
without the requested id.  The `NotFoundError` raised inside the `try` block
is swallowed by `except Exception` and re-raised as `DatabaseError`, so the
caller observes status 500, not 404. -/
theorem repository_get_delete_absent_yields_database_error :
    repositoryGet "cover_letters" ([] : List (String × Unit))
        "aaaaaaaaaaaaaaaaaaaaaaaa"
      = .error (databaseError
          "Failed to get cover_letters: 404: cover_letters not found")
    ∧ repositoryDelete "cover_letters" ([] : List (String × Unit))
        "aaaaaaaaaaaaaaaaaaaaaaaa"
      = .error (databaseError
          "Failed to delete cover_letters: 404: cover_letters not found")
    ∧ (databaseError
        "Failed to get cover_letters: 404: cover_letters not found").status
        = 500
    ∧ (500 ≠ 404) := by
  refine ⟨?_, ?_, rfl, by decide⟩
  · rfl
  · rfl

/-- The deactivation filter, spelled out propositionally. -/
theorem matchesDeactivation_iff (u ex : String) (d : CoverLetterDoc) :
    matchesDeactivation u ex d = true ↔
      d.user_id = u ∧ d.id ≠ ex ∧ d.active = true := by
  simp [matchesDeactivation, and_assoc]

/-- A document with a different id that does not match the deactivation
filter is not an active document of the user. -/
theorem active_pred_false_of_not_matches (u ex : String) (d : CoverLetterDoc)
    (hne : d.id ≠ ex) (hm : matchesDeactivation u ex d = false) :
    (d.user_id == u && d.active) = false := by
  cases hu : d.user_id == u <;> cases ha : d.active <;>
    simp_all [matchesDeactivation]

/-- After `update_many`-deactivation, a collection whose documents all have
ids different from the excluded one contains no active document of the
user. -/
theorem filter_active_updateMany (u ex : String) (now : Nat) :
    ∀ coll : List CoverLetterDoc, (∀ d ∈ coll, d.id ≠ ex) →
    (updateManyCoverLetters (matchesDeactivation u ex)
        (fun d => { d with active := false, updated_at := now }) coll).filter
        (fun d => d.user_id == u && d.active) = [] := by
  intro coll
  induction coll with
  | nil => intro _; rfl
  | cons d rest ih =>
    intro h
    have hd : d.id ≠ ex := h d (by simp)
    have hrest : ∀ x ∈ rest, x.id ≠ ex := fun x hx => h x (by simp [hx])
    by_cases hm : matchesDeactivation u ex d = true
    · simpa [updateManyCoverLetters, hm, List.filter_cons] using ih hrest
    · have hpred := active_pred_false_of_not_matches u ex d hd
        (Bool.eq_false_iff.mpr hm)
      simpa [updateManyCoverLetters, hm, List.filter_cons, hpred]
        using ih hrest


/-- With pairwise-distinct ids, `find_one` on an id held by a member returns
exactly that member. -/
theorem find?_id_eq_of_nodup (clId : String) :
    ∀ coll : List CoverLetterDoc, (coll.map (fun d => d.id)).Nodup →
    ∀ d0 ∈ coll, d0.id = clId →
    coll.find? (fun d => d.id == clId) = some d0 := by
  intro coll
  induction coll with
  | nil => simp
  | cons e rest ih =>
    intro hnd d0 hmem hid
    rw [List.map_cons] at hnd
    have hnd' := List.nodup_cons.mp hnd
    rcases List.mem_cons.mp hmem with he | hr
    · subst he
      have hpos : (d0.id == clId) = true := by simp [hid]
      simp [List.find?_cons, hpos]
    · have hne : e.id ≠ clId := by
        intro hcontra
        exact hnd'.1 (by
          rw [hcontra, ← hid]
          exact List.mem_map_of_mem (fun d => d.id) hr)
      have hneg : (e.id == clId) = false := beq_eq_false_iff_ne.mpr hne
      simp only [List.find?_cons, hneg]
      exact ih hnd'.2 d0 hr hid

/-- Core of the update path of active-exclusivity: after the partial update
setting the target active and the subsequent deactivation pass, the only
active cover letter of the user is the target. -/
theorem filter_active_update_core (u clId : String) (now : Nat)
    (upd : CoverLetterUpdateData) (hact : upd.active = some true) :
    ∀ coll : List CoverLetterDoc, (coll.map (fun d => d.id)).Nodup →
    ∀ d0 ∈ coll, d0.id = clId → d0.user_id = u →
    ((updateManyCoverLetters (matchesDeactivation u clId)
        (fun d => { d with active := false, updated_at := now })
        (coll.map (fun e =>
          if e.id == clId then applyCoverLetterUpdate e upd now else e))).filter
        (fun d => d.user_id == u && d.active)).map (fun d => d.id) = [clId] := by
  intro coll
  induction coll with
  | nil => simp
  | cons e rest ih =>
    intro hnd d0 hmem hid huser
    rw [List.map_cons] at hnd
    have hnd' := List.nodup_cons.mp hnd
    rcases List.mem_cons.mp hmem with he | hr
    · subst he
      have hrestne : ∀ x ∈ rest, x.id ≠ clId := by
        intro x hx hcontra
        exact hnd'.1 (by
          rw [hid, ← hcontra]
          exact List.mem_map_of_mem (fun d => d.id) hx)
      have hmapf : rest.map (fun e =>
          if e.id == clId then applyCoverLetterUpdate e upd now else e)
          = rest := by
        conv_rhs => rw [← List.map_id rest]
        refine List.map_congr_left (fun x hx => ?_)
        have hxid : (x.id == clId) = false :=
          beq_eq_false_iff_ne.mpr (hrestne x hx)
        simp [hxid]
      have hpos : (d0.id == clId) = true := by simp [hid]
      have hactnew : (applyCoverLetterUpdate d0 upd now).active = true := by
        simp [applyCoverLetterUpdate, hact]
      have hnomatch : matchesDeactivation u clId
          (applyCoverLetterUpdate d0 upd now) = false := by
        have : (applyCoverLetterUpdate d0 upd now).id = clId := hid
        simp [matchesDeactivation, this]
      have hpredA : ((applyCoverLetterUpdate d0 upd now).user_id == u
          && (applyCoverLetterUpdate d0 upd now).active) = true := by
        have : (applyCoverLetterUpdate d0 upd now).user_id = d0.user_id := rfl
        simp [this, huser, hactnew]
      have hrestfilter := filter_active_updateMany u clId now rest hrestne
      rw [List.map_cons, hpos]
      simp only [if_true]
      rw [hmapf]
      simp only [updateManyCoverLetters, List.map_cons] at hrestfilter ⊢
      rw [hnomatch]
      simp only [Bool.false_eq_true, if_false]
      simp only [List.filter_cons, hpredA, if_true]
      rw [hrestfilter, List.map_cons]
      have : (applyCoverLetterUpdate d0 upd now).id = clId := hid
      simp [this]
    · have hne : e.id ≠ clId := by
        intro hcontra
        exact hnd'.1 (by
          rw [hcontra, ← hid]
          exact List.mem_map_of_mem (fun d => d.id) hr)
      have hfe : (e.id == clId) = false := beq_eq_false_iff_ne.mpr hne
      have htail := ih hnd'.2 d0 hr hid huser
      rw [List.map_cons, hfe]
      simp only [Bool.false_eq_true, if_false]
      simp only [updateManyCoverLetters, List.map_cons] at htail ⊢
      by_cases hm : matchesDeactivation u clId e = true
      · rw [hm]
        simp only [if_true]
        simpa [List.filter_cons] using htail
      · have hmf : matchesDeactivation u clId e = false := Bool.eq_false_iff.mpr hm
        have hpred := active_pred_false_of_not_matches u clId e hne hmf
        rw [hmf]
        simp only [Bool.false_eq_true, if_false]
        simpa [List.filter_cons, hpred] using htail

/-- C1: a create with `active=true` (given a fresh store-generated id), and
an update setting `active=true` (given the target exists, is owned by the
user, and ids are unique), each leave exactly one active cover letter for
that user — the created/updated one; all other active letters of the user
are deactivated. -/
theorem cover_letter_active_exclusive :
    (∀ (coll : List CoverLetterDoc) (u : String)
        (data : CoverLetterCreateData) (newId : String) (now : Nat),
      data.active = true → isValidObjectId newId = true →
      (∀ d ∈ coll, d.id ≠ newId) →
      ∃ doc coll', create_cover_letter coll u data newId now = .ok (doc, coll')
        ∧ doc.id = newId
        ∧ (coll'.filter (fun d => d.user_id == u && d.active)).map
            (fun d => d.id) = [newId])
    ∧ (∀ (coll : List CoverLetterDoc) (u clId : String)
        (upd : CoverLetterUpdateData) (now : Nat) (d0 : CoverLetterDoc),
      upd.active = some true → isValidObjectId clId = true →
      (coll.map (fun d => d.id)).Nodup → d0 ∈ coll → d0.id = clId →
      d0.user_id = u →
      ∃ doc coll', update_cover_letter coll u clId upd now = .ok (doc, coll')
        ∧ doc.id = clId
        ∧ (coll'.filter (fun d => d.user_id == u && d.active)).map
            (fun d => d.id) = [clId]) := by
  constructor
  · intro coll u data newId now hact hval hfresh
    refine ⟨coverLetterFromCreate data u newId now,
      updateManyCoverLetters (matchesDeactivation u newId)
        (fun d => { d with active := false, updated_at := now })
        (coll ++ [coverLetterFromCreate data u newId now]), ?_, rfl, ?_⟩
    · simp [create_cover_letter, hact, deactivate_other_cover_letters, hval]
    · have hnomatch : matchesDeactivation u newId
          (coverLetterFromCreate data u newId now) = false := by
        simp [matchesDeactivation, coverLetterFromCreate]
      have hpred : ((coverLetterFromCreate data u newId now).user_id == u
          && (coverLetterFromCreate data u newId now).active) = true := by
        simp [coverLetterFromCreate, hact]
      have hcoll := filter_active_updateMany u newId now coll hfresh
      simp only [updateManyCoverLetters, List.map_append, List.map_cons,
        List.map_nil] at hcoll ⊢
      rw [List.filter_append, hcoll, hnomatch]
      simp only [Bool.false_eq_true, if_false, List.nil_append]
      simp [List.filter_cons, hpred, coverLetterFromCreate, hact]
  · intro coll u clId upd now d0 hact hval hnd hmem hid huser
    have hfind : coll.find? (fun d => d.id == clId) = some d0 :=
      find?_id_eq_of_nodup clId coll hnd d0 hmem hid
    have hget : coverRepoGet coll clId = .ok d0 := by
      unfold coverRepoGet repositoryGet repositoryGetInner repoFindOne
      rw [List.find?_map]
      simp only [Function.comp_def]
      rw [hfind]
      simp [hval]
    have hupd : coverRepoUpdate coll clId upd now
        = .ok (applyCoverLetterUpdate d0 upd now,
            coll.map (fun e =>
              if e.id == clId then applyCoverLetterUpdate e upd now else e)) := by
      simp [coverRepoUpdate, hval, hfind]
    refine ⟨applyCoverLetterUpdate d0 upd now,
      updateManyCoverLetters (matchesDeactivation u clId)
        (fun d => { d with active := false, updated_at := now })
        (coll.map (fun e =>
          if e.id == clId then applyCoverLetterUpdate e upd now else e)),
      ?_, hid, ?_⟩
    · have hown : (d0.user_id == u) = true := by simp [huser]
      have hacteq : (upd.active == some true) = true := by simp [hact]
      unfold update_cover_letter
      rw [hget]
      simp only [hown, if_true]
      rw [hupd]
      simp [hacteq, deactivate_other_cover_letters, hval]
    · exact filter_active_update_core u clId now upd hact coll hnd d0 hmem hid
        huser

/-- C1 witness: concrete runs of both the create path and the update path,
each discharging the theorem's hypotheses at explicit inputs. -/
theorem cover_letter_active_exclusive_witness :
    (∃ doc coll',
      create_cover_letter [demoDocA] "u1" demoCreate demoId3 7
          = .ok (doc, coll')
        ∧ doc.id = demoId3
        ∧ (coll'.filter (fun d => d.user_id == "u1" && d.active)).map
            (fun d => d.id) = [demoId3])
    ∧ (∃ doc coll',
      update_cover_letter [demoDocA, demoDocB] "u1" demoId2 demoUpd 9
          = .ok (doc, coll')
        ∧ doc.id = demoId2
        ∧ (coll'.filter (fun d => d.user_id == "u1" && d.active)).map
            (fun d => d.id) = [demoId2]) :=
  ⟨cover_letter_active_exclusive.1 [demoDocA] "u1" demoCreate demoId3 7
      (by decide) (by decide) (by decide),
    cover_letter_active_exclusive.2 [demoDocA, demoDocB] "u1" demoId2 demoUpd 9
      demoDocB (by decide) (by decide) (by decide) (by decide) (by decide)
      (by decide)⟩

/-- C10: `deactivate_other_cover_letters` is a pure per-document frame: a
document of the given user with a different id and `active=true` is exactly
deactivated and restamped; every other document — the excluded one,
already-inactive letters of the user, and letters of other users — is left
completely unchanged.  The collection length is preserved. -/
theorem deactivate_other_cover_letters_frame (coll : List CoverLetterDoc)
    (u ex : String) (now : Nat) (hval : isValidObjectId ex = true) :
    ∃ coll', deactivate_other_cover_letters coll u ex now = .ok coll'
      ∧ coll'.length = coll.length
      ∧ List.Forall₂ (fun d d' =>
          ((d.user_id = u ∧ d.id ≠ ex ∧ d.active = true) →
            d' = { d with active := false, updated_at := now })
          ∧ (¬(d.user_id = u ∧ d.id ≠ ex ∧ d.active = true) → d' = d))
          coll coll' := by
  refine ⟨updateManyCoverLetters (matchesDeactivation u ex)
      (fun d => { d with active := false, updated_at := now }) coll,
    by simp [deactivate_other_cover_letters, hval], ?_, ?_⟩
  · simp [updateManyCoverLetters]
  · induction coll with
    | nil => exact List.Forall₂.nil
    | cons d rest ih =>
      simp only [updateManyCoverLetters, List.map_cons] at ih ⊢
      refine List.Forall₂.cons ?_ ih
      constructor
      · intro hm
        have hmt : matchesDeactivation u ex d = true :=
          (matchesDeactivation_iff u ex d).mpr hm
        simp [hmt]
      · intro hm
        have hmf : matchesDeactivation u ex d = false :=
          Bool.eq_false_iff.mpr
            (fun hc => hm ((matchesDeactivation_iff u ex d).mp hc))
        simp [hmf]

/-- C10 witness: the frame property instantiated on a concrete two-document
collection with a concrete excluded id. -/
theorem deactivate_other_cover_letters_frame_witness :
    ∃ coll', deactivate_other_cover_letters [demoDocA, demoDocB] "u1"
        demoId2 5 = .ok coll'
      ∧ coll'.length = [demoDocA, demoDocB].length
      ∧ List.Forall₂ (fun d d' =>
          ((d.user_id = "u1" ∧ d.id ≠ demoId2 ∧ d.active = true) →
            d' = { d with active := false, updated_at := 5 })
          ∧ (¬(d.user_id = "u1" ∧ d.id ≠ demoId2 ∧ d.active = true) → d' = d))
          [demoDocA, demoDocB] coll' :=
  deactivate_other_cover_letters_frame [demoDocA, demoDocB] "u1" demoId2 5
    (by decide)

/-- C3: refuting "any other non-200 upstream status terminates the call with
a failure on that same attempt (never retried)".  With HTTP 500 on the
first attempt and HTTP 200 on the second, `analyze_file` sleeps
`2 ** 0 = 1` second, retries, and returns the second attempt's success: the
terminal `raise HTTPException` for the non-429 status is swallowed by the
per-attempt `except Exception`, which retries every failure while attempts
remain. -/
theorem analyze_file_retries_non_429_status :
    analyze_file ".pdf" respFail500Then200 = (.ok "parsed", [1])
    ∧ respFail500Then200 0 = .status 500 "boom"
    ∧ (500 ≠ 429 ∧ 500 ≠ 200) := by
  refine ⟨rfl, rfl, by decide⟩

/-- `str.find` returns no index when the character does not occur. -/
theorem pyFindAux_eq_none {c : Char} : ∀ l : List Char, c ∉ l →
    pyFindAux c l = none := by
  intro l h
  induction l with
  | nil => rfl
  | cons x xs ih =>
    have hx : ¬ x = c := fun he => h (he ▸ List.mem_cons_self x xs)
    simp [pyFindAux, hx, ih (fun hc => h (List.mem_cons_of_mem x hc))]

/-- C4: `extract_json` fails with a parsing error when the text has no
opening or no closing brace; on the spec's example text it returns the
object with member "a" mapped to 1; and a braced substring that is not
valid JSON also yields an error. -/
theorem extract_json_spec :
    (∀ content : String, lbrace ∉ content.toList ∨ rbrace ∉ content.toList →
      ∃ e, extract_json content = .error e)
    ∧ extract_json "Sure! Here is the data: \x7b\"a\": 1\x7d Hope that helps"
        = .ok (Json.obj [("a", Json.num 1)])
    ∧ (∃ e, extract_json "no valid json here \x7b : : \x7d end"
        = .error e) := by
  refine ⟨?_, rfl, ⟨_, rfl⟩⟩
  intro content h
  refine ⟨databaseError "Error extracting data: Could not find JSON in response", ?_⟩
  rcases h with h | h
  · have hn : pyFindAux lbrace content.data = none :=
      pyFindAux_eq_none _ h
    have hf : pyFind content lbrace = -1 := by
      simp [pyFind, String.toList, hn]
    simp [extract_json, hf]
  · have hrev : rbrace ∉ content.toList.reverse := by
      simpa [List.mem_reverse] using h
    have hn : pyFindAux rbrace content.data.reverse = none :=
      pyFindAux_eq_none _ hrev
    have hf : pyRfind content rbrace = -1 := by
      simp [pyRfind, String.toList, hn]
    have hstop : pyRfind content rbrace + 1 = 0 := by rw [hf]; norm_num
    simp [extract_json, hf, hstop]

/-- C4 witness: the no-brace branch applied at a concrete brace-free text. -/
theorem extract_json_spec_witness :
    ∃ e, extract_json "nothing here" = .error e :=
  extract_json_spec.1 "nothing here" (Or.inl (by decide))

/-- C5 counterexample: the `AuthService.create_user` variant (named by the
claim alongside `core/auth.py`) signals a duplicate email with
`AuthenticationError` (HTTP 401), not a 409 Conflict, so "register fails
with a Conflict error" is false as stated for that code path. -/
theorem register_conflict_counterexample :
    authServiceCreateUser h0 [demoUser]
        { email := "e@x.com", password := "Pw", username := none }
        demoId2 3
      = (.error (authenticationError "Email already registered"), [demoUser])
    ∧ (authenticationError "Email already registered").status = 401
    ∧ (401 ≠ 409) :=
  ⟨rfl, rfl, by decide⟩

/-- C5 amended: on the `core/auth.py` path a taken email or username makes
`signup` fail with 409 Conflict and leaves the collection unchanged, and
with both free it persists the user with the hashed password and issues the
two tokens whose subject is the new id; the `AuthService` variant rejects
the same duplicates without inserting, but with a 401 `AuthenticationError`
instead of Conflict. -/
theorem register_uniqueness_amended :
    (∀ (hashFn : String → String) (db : List UserDoc) (p : UserCreateData)
        (newId : String) (now : Nat) (key : String),
      db.any (fun d => d.email == p.email) = true →
      signup hashFn db p newId now key
        = (.error { status := 409, detail := "Email already registered" }, db))
    ∧ (∀ (hashFn : String → String) (db : List UserDoc) (p : UserCreateData)
        (newId : String) (now : Nat) (key : String),
      db.any (fun d => d.email == p.email) = false →
      (pyTruthy p.username
        && db.any (fun d => d.username == p.username)) = true →
      signup hashFn db p newId now key
        = (.error { status := 409, detail := "Username already taken" }, db))
    ∧ (∀ (hashFn : String → String) (db : List UserDoc) (p : UserCreateData)
        (newId : String) (now : Nat) (key : String),
      db.any (fun d => d.email == p.email) = false →
      (pyTruthy p.username
        && db.any (fun d => d.username == p.username)) = false →
      signup hashFn db p newId now key
        = (.ok { access_token := create_access_token newId 24 now key,
                 refresh_token := create_refresh_token newId now key,
                 token_type := "bearer" },
           db ++ [{ id := newId, email := p.email, username := p.username,
                    password := hashFn p.password, created_at := now,
                    updated_at := none }])
        ∧ (create_access_token newId 24 now key).sub = some newId
        ∧ (create_refresh_token newId now key).sub = some newId)
    ∧ (∀ (hashFn : String → String) (db : List UserDoc) (p : UserCreateData)
        (newId : String) (now : Nat),
      (db.any (fun d => d.email == p.email)
        || (pyTruthy p.username
            && db.any (fun d => d.username == p.username))) = true →
      ∃ e, authServiceCreateUser hashFn db p newId now = (.error e, db)
        ∧ e.status = 401) := by
  refine ⟨?_, ?_, ?_, ?_⟩
  · intro hashFn db p newId now key h
    simp [signup, create_user, h]
  · intro hashFn db p newId now key h1 h2
    simp [signup, create_user, h1, h2]
  · intro hashFn db p newId now key h1 h2
    refine ⟨?_, rfl, rfl⟩
    simp [signup, create_user, h1, h2]
  · intro hashFn db p newId now h
    by_cases he : db.any (fun d => d.email == p.email) = true
    · exact ⟨authenticationError "Email already registered",
        by simp [authServiceCreateUser, he], rfl⟩
    · have he' : db.any (fun d => d.email == p.email) = false :=
        Bool.eq_false_iff.mpr he
      have hb : (pyTruthy p.username
          && db.any (fun d => d.username == p.username)) = true := by
        rcases Bool.or_eq_true_iff.mp h with h' | h'
        · exact absurd h' he
        · exact h'
      exact ⟨authenticationError "Username already taken",
        by simp [authServiceCreateUser, he', hb], rfl⟩

/-- C5 witness: the conflict branch and the success branch at concrete
inputs. -/
theorem register_uniqueness_amended_witness :
    signup h0 [demoUser]
        { email := "e@x.com", password := "Pw", username := none }
        demoId2 3 "k"
      = (.error { status := 409, detail := "Email already registered" },
         [demoUser])
    ∧ (signup h0 []
        { email := "a@b.c", password := "Pw", username := none }
        demoId2 3 "k"
      = (.ok { access_token := create_access_token demoId2 24 3 "k",
               refresh_token := create_refresh_token demoId2 3 "k",
               token_type := "bearer" },
         [{ id := demoId2, email := "a@b.c", username := none,
            password := h0 "Pw", created_at := 3, updated_at := none }])
        ∧ (create_access_token demoId2 24 3 "k").sub = some demoId2
        ∧ (create_refresh_token demoId2 3 "k").sub = some demoId2)
    ∧ (∃ e, authServiceCreateUser h0 [demoUser]
        { email := "e@x.com", password := "Pw", username := none }
        demoId2 3 = (.error e, [demoUser]) ∧ e.status = 401) :=
  ⟨register_uniqueness_amended.1 h0 [demoUser]
      { email := "e@x.com", password := "Pw", username := none }
      demoId2 3 "k" (by decide),
    register_uniqueness_amended.2.2.1 h0 []
      { email := "a@b.c", password := "Pw", username := none }
      demoId2 3 "k" (by decide) (by decide),
    register_uniqueness_amended.2.2.2 h0 [demoUser]
      { email := "e@x.com", password := "Pw", username := none }
      demoId2 3 (by decide)⟩

/-- C6: for a refresh token that decodes (right key, unexpired), whose
subject names an existing user with a valid id, the refresh endpoint
returns a fresh access token whose subject equals the refresh token's
subject, and hands the very same refresh token back (no rotation). -/
theorem refresh_preserves_subject (db : List UserDoc) (rt : JwtToken)
    (now : Nat) (key : String) (uid : String) (u : UserDoc)
    (hkey : rt.key = key) (hexp : now < rt.exp) (hsub : rt.sub = some uid)
    (hvalid : isValidObjectId uid = true)
    (hfind : db.find? (fun d => d.id == uid) = some u) :
    refresh_endpoint db rt now key
      = .ok { access_token := create_access_token uid 24 now key,
              refresh_token := rt, token_type := "bearer" }
    ∧ (create_access_token uid 24 now key).sub = rt.sub := by
  constructor
  · simp [refresh_endpoint, refresh_access_token, jwtDecode, hkey, hexp,
      hsub, hvalid, hfind]
  · simp [create_access_token, hsub]

/-- C6 witness: a concrete refresh run with a valid token for a stored
user. -/
theorem refresh_preserves_subject_witness :
    refresh_endpoint [demoUser] demoRefreshToken 5 "k"
      = .ok { access_token := create_access_token demoId1 24 5 "k",
              refresh_token := demoRefreshToken, token_type := "bearer" }
    ∧ (create_access_token demoId1 24 5 "k").sub = demoRefreshToken.sub :=
  refresh_preserves_subject [demoUser] demoRefreshToken 5 "k" demoId1
    demoUser rfl (by decide) rfl (by decide) rfl

/-- Every failure of `authenticate_user` is the one shared 401. -/
theorem authenticate_error_eq (verify : String → String → Bool)
    (db : List UserDoc) (login password : String) (now : Nat)
    (e : HttpError)
    (h : authenticate_user verify db login password now = .error e) :
    e = incorrectLoginError := by
  unfold authenticate_user at h
  cases hf : db.find? (fun d => d.email == login || d.username == some login) with
  | none =>
      rw [hf] at h
      exact (Except.error.inj h).symm
  | some u =>
      rw [hf] at h
      by_cases hv : verify password u.password = true
      · simp [hv] at h
      · simp [Bool.eq_false_iff.mpr hv] at h
        exact h.symm

/-- C8: `authenticate_user` fails with Unauthorized both on no matching
user and on a password mismatch, and the two failure outcomes are the very
same error value (same kind, status 401, and detail), across any two runs:
the caller cannot tell the causes apart. -/
theorem authenticate_failures_indistinguishable
    (verify : String → String → Bool)
    (db1 : List UserDoc) (l1 p1 : String) (n1 : Nat)
    (db2 : List UserDoc) (l2 p2 : String) (n2 : Nat)
    (e1 e2 : HttpError)
    (h1 : authenticate_user verify db1 l1 p1 n1 = .error e1)
    (h2 : authenticate_user verify db2 l2 p2 n2 = .error e2) :
    e1 = e2 ∧ e1 = incorrectLoginError ∧ e1.status = 401 := by
  have q1 := authenticate_error_eq verify db1 l1 p1 n1 e1 h1
  have q2 := authenticate_error_eq verify db2 l2 p2 n2 e2 h2
  exact ⟨q1.trans q2.symm, q1, by rw [q1]; rfl⟩

/-- C8 witness: one run failing on a nonexistent login and one failing on
a wrong password produce equal outcomes. -/
theorem authenticate_failures_indistinguishable_witness :
    authenticate_user v0 ([] : List UserDoc) "x" "y" 0
      = authenticate_user v0 [demoUser] "e@x.com" "bad" 0 := by
  have h := authenticate_failures_indistinguishable v0 [] "x" "y" 0
    [demoUser] "e@x.com" "bad" 0 incorrectLoginError incorrectLoginError
    rfl rfl
  exact congrArg Except.error h.1

/-- C9 counterexample: with one stored user holding both the supplied
email and the supplied username, `check_availability` reports only
"Email already registered" — it does not identify the username, which is
also taken; and a call supplying neither field returns a normal
`is_available=False` response, not a validation rejection. -/
theorem check_availability_counterexample :
    check_availability [demoUser] (some "e@x.com") (some "u")
        = { is_available := false, message := "Email already registered" }
    ∧ [demoUser].any (fun d => d.username == some "u") = true
    ∧ "Email already registered" ≠ "Username already taken"
    ∧ check_availability [] none none
        = { is_available := false,
            message := "No email or username provided" } :=
  ⟨rfl, rfl, by decide, rfl⟩

/-- C9 amended: availability is reported exactly when every supplied
(truthy) field is free — but when unavailable the message names only the
first taken field in check order (email before username), and a call
supplying neither field yields a normal `is_available=False` response
rather than a validation error.  The fresh-database example and its
after-registration counterpart hold. -/
theorem check_availability_amended :
    (∀ (db : List UserDoc) (email username : Option String),
      (check_availability db email username).is_available
        = ((pyTruthy email || pyTruthy username)
            && !(pyTruthy email && db.any (fun d => d.email == email.getD ""))
            && !(pyTruthy username
                && db.any (fun d => d.username == some (username.getD "")))))
    ∧ check_availability [] (some "x@y.com") none
        = { is_available := true, message := "Available" }
    ∧ (∀ (hashFn : String → String) (newId : String) (now : Nat)
        (key : String),
      check_availability
          (signup hashFn []
            { email := "x@y.com", password := "Pw", username := none }
            newId now key).2
          (some "x@y.com") none
        = { is_available := false, message := "Email already registered" })
    ∧ (∀ (db : List UserDoc),
      check_availability db none none
        = { is_available := false,
            message := "No email or username provided" }) := by
  refine ⟨?_, rfl, ?_, ?_⟩
  · intro db email username
    unfold check_availability
    cases he : pyTruthy email <;> cases hu : pyTruthy username <;>
      cases hae : db.any (fun d => d.email == email.getD "") <;>
        cases hau : db.any (fun d => d.username == some (username.getD "")) <;>
          simp [he, hu, hae, hau]
  · intro hashFn newId now key
    simp [signup, create_user, check_availability, pyTruthy]
  · intro db
    simp [check_availability, pyTruthy]

/-- C7 counterexample: the resumes list uses camelCase pagination keys, so
the claimed `current_page` key is absent; and the cover-letter list is
ordered by `updated_at` descending only — the output puts the published
letter (updated later) before the archived one although status-ascending
order would list the archived one first. -/
theorem list_pagination_counterexample :
    (get_resumes_by_user [mkResume 0] "u" 1 10 none).pagination.lookup
        "current_page" = none
    ∧ (get_resumes_by_user [mkResume 0] "u" 1 10 none).pagination.lookup
        "currentPage" = some 1
    ∧ (coverLetterGetByUser [demoCLA, demoCLB] "u1" 1 10 none none).list.map
        (fun d => d.id) = [demoId1, demoId2]
    ∧ clStatusKey demoCLB.status < clStatusKey demoCLA.status :=
  ⟨rfl, rfl, rfl, by decide⟩

/-- The resumes sort key transfers through item conversion. -/
theorem procOrder_of_resumeOrder {a b : ResumeDoc} (h : resumeOrder a b) :
    procResumeOrder (processResumeDoc a) (processResumeDoc b) :=
  h

/-- C7 amended: both list operations return `{list, pagination}` with
`total` counting the matching documents, `total_pages` the ceiling of
`total / per_page`, and `min(per_page, total - (page-1)*per_page)` items on
the requested page (so 15 resumes with per_page=10 give 5 items on page 2
and totalPages = 2); the resumes pagination keys are camelCase
(`currentPage`, `totalPages`, `perPage`) while the cover-letter keys are
snake_case; resumes are sorted by status ascending then created_at
descending, cover letters by updated_at descending only. -/
theorem list_pagination_amended :
    (∀ (db : List ResumeDoc) (u : String) (page pp : Nat)
        (st? : Option ResumeStatus),
      (get_resumes_by_user db u page pp st?).list.length
          = min pp ((db.filter (resumeQuery u st?)).length - (page - 1) * pp)
      ∧ (get_resumes_by_user db u page pp st?).pagination.lookup "total"
          = some (db.filter (resumeQuery u st?)).length
      ∧ (get_resumes_by_user db u page pp st?).pagination.lookup "totalPages"
          = some (((db.filter (resumeQuery u st?)).length + pp - 1) / pp)
      ∧ (get_resumes_by_user db u page pp st?).list.Pairwise procResumeOrder)
    ∧ (∀ (db : List CoverLetterDoc) (u : String) (page pp : Nat)
        (st? : Option CoverLetterStatus) (act? : Option Bool),
      (coverLetterGetByUser db u page pp st? act?).list.length
          = min pp ((db.filter (clQuery u st? act?)).length - (page - 1) * pp)
      ∧ (coverLetterGetByUser db u page pp st? act?).pagination.lookup
          "total_pages"
          = some (((db.filter (clQuery u st? act?)).length + pp - 1) / pp)
      ∧ (coverLetterGetByUser db u page pp st? act?).list.Pairwise clOrder)
    ∧ ((get_resumes_by_user db15 "u" 2 10 none).list.length = 5
      ∧ (get_resumes_by_user db15 "u" 2 10 none).pagination.lookup
          "totalPages" = some 2) := by
  refine ⟨?_, ?_, by decide, by decide⟩
  · intro db u page pp st?
    refine ⟨?_, rfl, rfl, ?_⟩
    · simp only [get_resumes_by_user, List.length_map, List.length_take,
        List.length_drop]
      rw [(List.perm_insertionSort resumeOrder _).length_eq]
    · show ((((List.insertionSort resumeOrder
          (db.filter (resumeQuery u st?))).drop
          ((page - 1) * pp)).take pp).map processResumeDoc).Pairwise
          procResumeOrder
      have hs := List.sorted_insertionSort resumeOrder
        (db.filter (resumeQuery u st?))
      have hsub := (List.take_sublist pp
          ((List.insertionSort resumeOrder
            (db.filter (resumeQuery u st?))).drop ((page - 1) * pp))).trans
        (List.drop_sublist ((page - 1) * pp)
          (List.insertionSort resumeOrder (db.filter (resumeQuery u st?))))
      exact List.pairwise_map.mpr
        ((List.Pairwise.sublist hsub hs).imp
          (fun h => procOrder_of_resumeOrder h))
  · intro db u page pp st? act?
    refine ⟨?_, rfl, ?_⟩
    · simp only [coverLetterGetByUser, List.length_take, List.length_drop]
      rw [(List.perm_insertionSort clOrder _).length_eq]
    · show (((List.insertionSort clOrder
          (db.filter (clQuery u st? act?))).drop
          ((page - 1) * pp)).take pp).Pairwise clOrder
      have hs := List.sorted_insertionSort clOrder
        (db.filter (clQuery u st? act?))
      have hsub := (List.take_sublist pp
          ((List.insertionSort clOrder
            (db.filter (clQuery u st? act?))).drop ((page - 1) * pp))).trans
        (List.drop_sublist ((page - 1) * pp)
          (List.insertionSort clOrder (db.filter (clQuery u st? act?))))
      exact List.Pairwise.sublist hsub hs
